import Mathlib

/-!
Verification of the timestamp-targeted frame-extraction pipeline of the
`video-capture` crate.

The development shallowly embeds the two extraction pipelines of the crate:

* `src/lib.rs` (`extract_frame`, buffer-backed input, error type
  `FrameExtractError`, wasm exports `get_video_frame` /
  `get_video_frame_with_options`), and
* `src/video_processor.rs` (`extract_frame`, file-backed input, error type
  `VideoError` with the numeric `VideoErrorCode` taxonomy, wasm export
  `extract_video_frame` in `src/wasm_interface.rs`).

External-collaborator calls (container open, stream selection, decoder
construction, seek, packet reads, decoder send/receive, converter
build/run, filesystem writes) are modelled as explicit data supplied in an
environment record: each call site's result is a field, and the decoded
frames the decoder yields after each packet are carried by the packet
value itself.  Machine floating point (`f64`) is idealised as exact
rational arithmetic; the Rust `as i64` cast is modelled by truncation
toward zero (`Int.tdiv`).  A Rust panic (an `unwrap()` failure or an
out-of-bounds slice index) is modelled by the value `none` of an outer
`Option` layer, so `none` never stands for an error *return*.
-/

namespace VideoCapture

deriving instance DecidableEq for Except

/-- Output pixel formats of `lib.rs` (`enum PixelFormat`). -/
inductive PixelFormat where
  | RGB24
  | RGBA
  | BGR24
  | GRAY8
deriving DecidableEq

/-- Scaling methods of `lib.rs` (`enum ScalingMethod`). -/
inductive ScalingMethod where
  | Bilinear
  | Bicubic
  | AreaBased
  | Fast
deriving DecidableEq

/-- Extraction options of `lib.rs` (`struct FrameExtractOptions`).
`width`/`height` are `None` to keep the source dimensions. -/
structure FrameExtractOptions where
  pixel_format : PixelFormat
  scaling_method : ScalingMethod
  width : Option Nat
  height : Option Nat
deriving DecidableEq

/-- The `Default` impl for `FrameExtractOptions` in `lib.rs`. -/
def FrameExtractOptions.defaultOptions : FrameExtractOptions :=
  { pixel_format := PixelFormat.RGB24
    scaling_method := ScalingMethod.Bilinear
    width := none
    height := none }

/-- FFmpeg pixel-format values (`ffmpeg_next::util::format::Pixel`); only the
constructors the crate mentions are distinguished, every other format is
`other`. -/
inductive FfPixel where
  | RGB24
  | RGBA
  | BGR24
  | GRAY8
  | other (code : Nat)
deriving DecidableEq

/-- FFmpeg software-scaling flags (`scaling::flag::Flags`). -/
inductive SwsFlag where
  | BILINEAR
  | BICUBIC
  | AREA
  | FAST_BILINEAR
deriving DecidableEq

/-- The function `to_ffmpeg_pixel_format` of `lib.rs`. -/
def to_ffmpeg_pixel_format : PixelFormat → FfPixel
  | PixelFormat.RGB24 => FfPixel.RGB24
  | PixelFormat.RGBA => FfPixel.RGBA
  | PixelFormat.BGR24 => FfPixel.BGR24
  | PixelFormat.GRAY8 => FfPixel.GRAY8

/-- The function `to_ffmpeg_scaling_flag` of `lib.rs`. -/
def to_ffmpeg_scaling_flag : ScalingMethod → SwsFlag
  | ScalingMethod.Bilinear => SwsFlag.BILINEAR
  | ScalingMethod.Bicubic => SwsFlag.BICUBIC
  | ScalingMethod.AreaBased => SwsFlag.AREA
  | ScalingMethod.Fast => SwsFlag.FAST_BILINEAR

/-- The `bytes_per_pixel` match inside `process_frame` in `lib.rs`
(lines 190–194). -/
def bytes_per_pixel : PixelFormat → Nat
  | PixelFormat.RGB24 => 3
  | PixelFormat.BGR24 => 3
  | PixelFormat.RGBA => 4
  | PixelFormat.GRAY8 => 1

/-- The error type `FrameExtractError` of `lib.rs`; the payload of
`FFmpegError` keeps only the backend message text. -/
inductive FrameExtractError where
  | FFmpegError (msg : String)
  | FrameNotFound
deriving DecidableEq

/-- The error taxonomy `VideoErrorCode` of `error.rs`. -/
inductive VideoErrorCode where
  | Unknown
  | InitFailed
  | NoVideoStream
  | DecoderFailed
  | FrameNotFound
  | InvalidInput
  | SeekFailed
  | FFmpegError
deriving DecidableEq

/-- The method `VideoErrorCode::get_code` (`*self as u32`, with the
discriminants declared in `error.rs`). -/
def VideoErrorCode.get_code : VideoErrorCode → Nat
  | VideoErrorCode.Unknown => 0
  | VideoErrorCode.InitFailed => 1
  | VideoErrorCode.NoVideoStream => 2
  | VideoErrorCode.DecoderFailed => 3
  | VideoErrorCode.FrameNotFound => 4
  | VideoErrorCode.InvalidInput => 5
  | VideoErrorCode.SeekFailed => 6
  | VideoErrorCode.FFmpegError => 7

/-- The Rust `format!("{:?}", code)` rendering used by `VideoError::new`
when no custom message is given. -/
def VideoErrorCode.debug_str : VideoErrorCode → String
  | VideoErrorCode.Unknown => "Unknown"
  | VideoErrorCode.InitFailed => "InitFailed"
  | VideoErrorCode.NoVideoStream => "NoVideoStream"
  | VideoErrorCode.DecoderFailed => "DecoderFailed"
  | VideoErrorCode.FrameNotFound => "FrameNotFound"
  | VideoErrorCode.InvalidInput => "InvalidInput"
  | VideoErrorCode.SeekFailed => "SeekFailed"
  | VideoErrorCode.FFmpegError => "FFmpegError"

/-- The struct `VideoError` of `error.rs`. -/
structure VideoError where
  code : VideoErrorCode
  message : String
deriving DecidableEq

/-- The constructor `VideoError::new` of `error.rs`. -/
def VideoError.new (code : VideoErrorCode) (custom_message : Option String) :
    VideoError :=
  { code := code, message := custom_message.getD code.debug_str }

/-- The struct `VideoResult` of `error.rs` returned across the wasm
boundary. -/
structure VideoResult where
  buffer : List Nat
  success : Bool
  error_code : Nat
  error_message : String
deriving DecidableEq

/-- The associated function `VideoResult::success` of `error.rs`. -/
def VideoResult.mkSuccess (data : List Nat) : VideoResult :=
  { buffer := data
    success := true
    error_code := VideoErrorCode.Unknown.get_code
    error_message := "" }

/-- The associated function `VideoResult::error` of `error.rs`. -/
def VideoResult.mkError (code : VideoErrorCode) (message : String) :
    VideoResult :=
  { buffer := []
    success := false
    error_code := code.get_code
    error_message := message }

/-- A decoded video frame as the loops observe it: its optional presentation
timestamp (`frame.timestamp()`), dimensions and native pixel format. -/
structure DecFrame where
  pts : Option Int
  width : Nat
  height : Nat
  format : FfPixel
deriving DecidableEq

/-- One packet yielded by the container, together with the decoder's
response to it: the result of `send_packet` and the frames the subsequent
`receive_frame` loop yields for it (in order). -/
structure Packet where
  stream : Nat
  send : Except String Unit
  frames : List DecFrame
deriving DecidableEq

/-- One result of the container's `read` call: a packet, or an error
(end of stream included, since the code only tests `is_ok()`). -/
inductive ReadResult where
  | ok (p : Packet)
  | err (msg : String)
deriving DecidableEq

/-- A constructed software-scaling context, holding exactly the arguments
of `scaling::context::Context::get`. -/
structure ScalerCtx where
  srcFormat : FfPixel
  srcW : Nat
  srcH : Nat
  dstFormat : FfPixel
  dstW : Nat
  dstH : Nat
  flag : SwsFlag
deriving DecidableEq

/-- The data of a converted output frame as the packer reads it:
`output_frame.stride(0)` and `output_frame.data(0)`.  Its width and height
are those of the scaler's destination (the swscale collaborator contract:
`run` fills the output frame at the context's destination geometry). -/
structure RawConv where
  stride : Nat
  data : List Nat
deriving DecidableEq

/-- Truncation toward zero of a rational, the semantics of Rust's
`as i64` cast applied to an (idealised) `f64` quotient. -/
def rat_trunc (q : Rat) : Int := Int.tdiv q.num (q.den : Int)

/-- The target-timestamp computation shared by both pipelines:
`(time_sec * f64::from(den) / f64::from(num)) as i64`, with `f64`
idealised as exact rational arithmetic. -/
def target_ts_q (time_sec : Rat) (num den : Int) : Int :=
  rat_trunc (time_sec * (den : Rat) / (num : Rat))

/-- The frame-acceptance predicate of both decode loops:
`timestamp.is_none() || timestamp.unwrap() >= target_ts`. -/
def accept_frame (target : Int) (f : DecFrame) : Bool :=
  match f.pts with
  | none => true
  | some v => decide (v ≥ target)

/-- The row-copy loop shared by both `process_frame` closures:
`for i in 0..height { result.extend_from_slice(&data[i*stride .. i*stride + line_size]) }`.
The result is `none` when a slice index is out of range (a Rust panic). -/
def copy_rows (data : List Nat) (stride line_size : Nat) : Nat → Option (List Nat)
  | 0 => some []
  | n + 1 =>
    match copy_rows data stride line_size n with
    | none => none
    | some acc =>
      if n * stride + line_size ≤ data.length then
        some (acc ++ (data.drop (n * stride)).take line_size)
      else none

/-- The closure `calculate_dimensions` of `lib.rs`:
`(options.width.unwrap_or(orig_width), options.height.unwrap_or(orig_height))`. -/
def calculate_dimensions (o : FrameExtractOptions) (orig_width orig_height : Nat) :
    Nat × Nat :=
  (o.width.getD orig_width, o.height.getD orig_height)

/-- The scaling context `lib.rs` builds lazily on the first processed frame
(`scaling::context::Context::get(frame.format(), width, height, dst_fmt,
out_width, out_height, flag)`). -/
def lib_scaler_ctx (o : FrameExtractOptions) (frame : DecFrame) : ScalerCtx :=
  { srcFormat := frame.format
    srcW := frame.width
    srcH := frame.height
    dstFormat := to_ffmpeg_pixel_format o.pixel_format
    dstW := (calculate_dimensions o frame.width frame.height).1
    dstH := (calculate_dimensions o frame.width frame.height).2
    flag := to_ffmpeg_scaling_flag o.scaling_method }

/-- The closure `process_frame` of `lib.rs` (lines 161–212).
`scaler_build` is the collaborator's answer to the lazy
`Context::get` call: on failure the code calls `.unwrap()`, a panic,
modelled by the outer `none`.  `run_scaler` is the collaborator's
`scaler.run`; an out-of-range row slice in the packing loop is also a
panic (`none`). -/
def process_frame_lib (scaler_build : Except String Unit)
    (run_scaler : ScalerCtx → DecFrame → Except String RawConv)
    (o : FrameExtractOptions) (frame : DecFrame) :
    Option (Except FrameExtractError (List Nat)) :=
  match scaler_build with
  | Except.error _ => none
  | Except.ok _ =>
    let s := lib_scaler_ctx o frame
    match run_scaler s frame with
    | Except.error e => some (Except.error (FrameExtractError.FFmpegError e))
    | Except.ok raw =>
      let bpp := bytes_per_pixel o.pixel_format
      let line_size := s.dstW * bpp
      match copy_rows raw.data raw.stride line_size s.dstH with
      | some buf => some (Except.ok buf)
      | none => none

/-- Outcome of the packet-reading loop shared by both pipelines. -/
inductive LoopOutcome where
  | found (f : DecFrame)
  | sendErr (msg : String)
  | exhausted
deriving DecidableEq

/-- The packet-reading loop of both pipelines: take read results while they
are `ok`; skip packets of other streams without sending them; send
selected-stream packets (a send error aborts); scan the frames the decoder
yields for the first acceptable one. -/
def read_loop (idx : Nat) (target : Int) : List ReadResult → LoopOutcome
  | [] => LoopOutcome.exhausted
  | ReadResult.err _ :: _ => LoopOutcome.exhausted
  | ReadResult.ok p :: rest =>
    if p.stream == idx then
      match p.send with
      | Except.error e => LoopOutcome.sendErr e
      | Except.ok _ =>
        match p.frames.find? (accept_frame target) with
        | some f => LoopOutcome.found f
        | none => read_loop idx target rest
    else read_loop idx target rest

/-- The decode/flush phase of `lib.rs::extract_frame` (lines 215–240): the
read loop, then `send_eof` and the drain scan, then `FrameNotFound`. -/
def decode_loop_lib (idx : Nat) (target : Int) (trace : List ReadResult)
    (eof_send : Except String Unit) (drained : List DecFrame)
    (scaler_build : Except String Unit)
    (run_scaler : ScalerCtx → DecFrame → Except String RawConv)
    (o : FrameExtractOptions) :
    Option (Except FrameExtractError (List Nat)) :=
  match read_loop idx target trace with
  | LoopOutcome.found f => process_frame_lib scaler_build run_scaler o f
  | LoopOutcome.sendErr e => some (Except.error (FrameExtractError.FFmpegError e))
  | LoopOutcome.exhausted =>
    match eof_send with
    | Except.error e => some (Except.error (FrameExtractError.FFmpegError e))
    | Except.ok _ =>
      match drained.find? (accept_frame target) with
      | some f => process_frame_lib scaler_build run_scaler o f
      | none => some (Except.error FrameExtractError.FrameNotFound)

/-- The collaborator answers one run of `lib.rs::extract_frame` observes,
one field per external call site. -/
structure LibEnv where
  open_io : Except String Unit
  open_input : Except String Unit
  best : Option Nat
  ctx_params : Except String Unit
  dec_video : Except String Unit
  tb_num : Int
  tb_den : Int
  seek : Except String Unit
  trace : List ReadResult
  eof_send : Except String Unit
  drained : List DecFrame
  scaler_build : Except String Unit
  run_scaler : ScalerCtx → DecFrame → Except String RawConv

/-- The function `extract_frame` of `lib.rs` (lines 112–241).  Every `?` on
a collaborator result becomes the `FFmpegError` variant via the `From`
impl; a missing best stream is mapped to `FrameNotFound` (line 128). -/
def extract_frame_lib (env : LibEnv) (time_sec : Rat) (o : FrameExtractOptions) :
    Option (Except FrameExtractError (List Nat)) :=
  match env.open_io with
  | Except.error e => some (Except.error (FrameExtractError.FFmpegError e))
  | Except.ok _ =>
    match env.open_input with
    | Except.error e => some (Except.error (FrameExtractError.FFmpegError e))
    | Except.ok _ =>
      match env.best with
      | none => some (Except.error FrameExtractError.FrameNotFound)
      | some idx =>
        match env.ctx_params with
        | Except.error e => some (Except.error (FrameExtractError.FFmpegError e))
        | Except.ok _ =>
          match env.dec_video with
          | Except.error e => some (Except.error (FrameExtractError.FFmpegError e))
          | Except.ok _ =>
            match env.seek with
            | Except.error e => some (Except.error (FrameExtractError.FFmpegError e))
            | Except.ok _ =>
              decode_loop_lib idx (target_ts_q time_sec env.tb_num env.tb_den)
                env.trace env.eof_send env.drained env.scaler_build
                env.run_scaler o

/-- The scaling context `video_processor.rs` builds eagerly from the decoder
parameters (lines 94–102): source and destination at the decoder geometry,
destination format fixed to RGB24, flags fixed to BILINEAR. -/
def vp_scaler_ctx (dec_format : FfPixel) (dec_width dec_height : Nat) : ScalerCtx :=
  { srcFormat := dec_format
    srcW := dec_width
    srcH := dec_height
    dstFormat := FfPixel.RGB24
    dstW := dec_width
    dstH := dec_height
    flag := SwsFlag.BILINEAR }

/-- The closure `process_frame` of `video_processor.rs` (lines 113–137):
run the scaler (failure maps to `FFmpegError` code 7), then copy
`rgb_frame.width() * 3` bytes per row for `rgb_frame.height()` rows.
An out-of-range row slice is a panic (`none`). -/
def process_frame_vp (run_scaler : ScalerCtx → DecFrame → Except String RawConv)
    (s : ScalerCtx) (frame : DecFrame) :
    Option (Except VideoError (List Nat)) :=
  match run_scaler s frame with
  | Except.error e =>
    some (Except.error (VideoError.new VideoErrorCode.FFmpegError
      (some ("颜色转换失败: " ++ e))))
  | Except.ok raw =>
    match copy_rows raw.data raw.stride (s.dstW * 3) s.dstH with
    | some buf => some (Except.ok buf)
    | none => none

/-- The collaborator answers one run of `video_processor.rs::extract_frame`
observes, one field per external call site. -/
structure VpEnv where
  open_input : Except String Unit
  best : Option Nat
  ctx_params : Except String Unit
  dec_video : Except String Unit
  tb_num : Int
  tb_den : Int
  seek : Except String Unit
  dec_format : FfPixel
  dec_width : Nat
  dec_height : Nat
  scaler_build : Except String Unit
  trace : List ReadResult
  eof_send : Except String Unit
  drained : List DecFrame
  run_scaler : ScalerCtx → DecFrame → Except String RawConv

/-- The function `extract_frame` of `video_processor.rs` (lines 27–186),
with its explicit error mapping at each step. -/
def extract_frame_vp (env : VpEnv) (time_sec : Rat) :
    Option (Except VideoError (List Nat)) :=
  match env.open_input with
  | Except.error e =>
    some (Except.error (VideoError.new VideoErrorCode.InvalidInput
      (some ("无法打开视频文件: " ++ e))))
  | Except.ok _ =>
    match env.best with
    | none => some (Except.error (VideoError.new VideoErrorCode.NoVideoStream none))
    | some idx =>
      match env.ctx_params with
      | Except.error e =>
        some (Except.error (VideoError.new VideoErrorCode.DecoderFailed
          (some ("无法创建解码器上下文: " ++ e))))
      | Except.ok _ =>
        match env.dec_video with
        | Except.error e =>
          some (Except.error (VideoError.new VideoErrorCode.DecoderFailed
            (some ("无法创建解码器: " ++ e))))
        | Except.ok _ =>
          match env.seek with
          | Except.error e =>
            some (Except.error (VideoError.new VideoErrorCode.SeekFailed
              (some ("无法定位到目标时间点: " ++ e))))
          | Except.ok _ =>
            match env.scaler_build with
            | Except.error e =>
              some (Except.error (VideoError.new VideoErrorCode.FFmpegError
                (some ("创建缩放器失败: " ++ e))))
            | Except.ok _ =>
              let target := target_ts_q time_sec env.tb_num env.tb_den
              let s := vp_scaler_ctx env.dec_format env.dec_width env.dec_height
              match read_loop idx target env.trace with
              | LoopOutcome.found f => process_frame_vp env.run_scaler s f
              | LoopOutcome.sendErr e =>
                some (Except.error (VideoError.new VideoErrorCode.DecoderFailed
                  (some ("发送数据包失败: " ++ e))))
              | LoopOutcome.exhausted =>
                match env.eof_send with
                | Except.error e =>
                  some (Except.error (VideoError.new VideoErrorCode.DecoderFailed
                    (some ("发送EOF失败: " ++ e))))
                | Except.ok _ =>
                  match env.drained.find? (accept_frame target) with
                  | some f => process_frame_vp env.run_scaler s f
                  | none =>
                    some (Except.error
                      (VideoError.new VideoErrorCode.FrameNotFound none))

/-- Filesystem events of `extract_frame_from_memory`: the temporary backing
file is written, then removed. -/
inductive FsEvent where
  | writeTemp (data : List Nat)
  | removeTemp
deriving DecidableEq

/-- The function `extract_frame_from_memory` of `video_processor.rs`
(lines 191–221): write the buffer to a temporary file, run the file-backed
extraction on it, remove the temporary file (its own error ignored), and
return the extraction result unchanged.  `file_extract` is the file-backed
extraction applied to the written bytes; the returned event list records
the filesystem effects in order. -/
def extract_frame_from_memory
    (file_extract : List Nat → Rat → Except VideoError (List Nat))
    (write_result : Except String Unit)
    (input_data : List Nat) (time_sec : Rat) :
    Except VideoError (List Nat) × List FsEvent :=
  match write_result with
  | Except.ok _ =>
    let result := file_extract input_data time_sec
    (result, [FsEvent.writeTemp input_data, FsEvent.removeTemp])
  | Except.error e =>
    (Except.error (VideoError.new VideoErrorCode.InvalidInput
      (some ("无法写入临时文件: " ++ e))), [])

/-- The wasm export `get_video_frame` of `lib.rs` (lines 253–265), as a
function of the inner extraction's result: the buffer on success, an empty
vector on any error. -/
def get_video_frame (r : Except FrameExtractError (List Nat)) : List Nat :=
  match r with
  | Except.ok buffer => buffer
  | Except.error _ => []

/-- The wasm export `extract_video_frame` of `wasm_interface.rs`
(lines 22–39), as a function of `extract_frame_from_memory`'s result. -/
def extract_video_frame (r : Except VideoError (List Nat)) : VideoResult :=
  match r with
  | Except.ok buffer => VideoResult.mkSuccess buffer
  | Except.error e => VideoResult.mkError e.code e.message

/-! ## Helper lemmas about the row-copy loop -/

theorem copy_rows_length {data : List Nat} {stride ls : Nat} :
    ∀ {h : Nat} {b : List Nat}, copy_rows data stride ls h = some b →
      b.length = h * ls := by
  intro h
  induction h with
  | zero =>
    intro b hb
    simp only [copy_rows, Option.some.injEq] at hb
    subst hb
    simp
  | succ n ih =>
    intro b hb
    simp only [copy_rows] at hb
    split at hb
    · simp at hb
    · next acc heq =>
        split at hb
        · next hbound =>
            injection hb with hb
            subst hb
            have hlen := ih heq
            have hdl : ls ≤ data.length - n * stride := by omega
            simp only [List.length_append, hlen, List.length_take, List.length_drop]
            rw [Nat.min_eq_left hdl, Nat.succ_mul]
        · simp at hb

theorem copy_rows_getElem {data : List Nat} {stride ls : Nat} :
    ∀ {h : Nat} {b : List Nat}, copy_rows data stride ls h = some b →
      ∀ i j, i < h → j < ls → b[i * ls + j]? = data[i * stride + j]? := by
  intro h
  induction h with
  | zero => intro b _ i j hi _; exact absurd hi (Nat.not_lt_zero i)
  | succ n ih =>
    intro b hb i j hi hj
    simp only [copy_rows] at hb
    split at hb
    · simp at hb
    · next acc heq =>
        split at hb
        · next hbound =>
            injection hb with hb
            subst hb
            have hlen := copy_rows_length heq
            by_cases hin : i < n
            · have hidx : i * ls + j < acc.length := by
                rw [hlen]
                calc i * ls + j < i * ls + ls := by omega
                  _ = (i + 1) * ls := (Nat.succ_mul i ls).symm
                  _ ≤ n * ls := Nat.mul_le_mul_right ls hin
              rw [List.getElem?_append_left hidx]
              exact ih heq i j hin hj
            · have hieq : n = i := by omega
              subst hieq
              have hge : acc.length ≤ n * ls + j := by
                rw [hlen]; exact Nat.le_add_right _ j
              rw [List.getElem?_append_right hge, hlen, Nat.add_sub_cancel_left,
                List.getElem?_take, if_pos hj, List.getElem?_drop]
        · simp at hb

/-! ## Claim C1 -/

/-- Claim C1: for every successful run of the `lib.rs` frame packer, the
returned buffer has length exactly `width * height * bytes_per_pixel(format)`
(output dimensions as computed by `calculate_dimensions`), and it is the
row-by-row concatenation, with no gaps, of exactly
`width * bytes_per_pixel` bytes starting at offset `row * stride` of the
converted frame's data — so no stride padding bytes appear in the
output. -/
theorem process_frame_lib_packs_exactly
    (scaler_build : Except String Unit)
    (run_scaler : ScalerCtx → DecFrame → Except String RawConv)
    (o : FrameExtractOptions) (frame : DecFrame) (buf : List Nat)
    (hok : process_frame_lib scaler_build run_scaler o frame =
      some (Except.ok buf)) :
    buf.length =
      (calculate_dimensions o frame.width frame.height).1 *
        (calculate_dimensions o frame.width frame.height).2 *
        bytes_per_pixel o.pixel_format ∧
    ∀ raw, run_scaler (lib_scaler_ctx o frame) frame = Except.ok raw →
      ∀ i j, i < (calculate_dimensions o frame.width frame.height).2 →
        j < (calculate_dimensions o frame.width frame.height).1 *
              bytes_per_pixel o.pixel_format →
        buf[i * ((calculate_dimensions o frame.width frame.height).1 *
              bytes_per_pixel o.pixel_format) + j]? =
          raw.data[i * raw.stride + j]? := by
  simp only [process_frame_lib] at hok
  split at hok
  · simp at hok
  · split at hok
    · simp at hok
    · next raw0 hrun =>
        split at hok
        · next buf0 hcopy =>
            simp only [Option.some.injEq, Except.ok.injEq] at hok
            subst hok
            refine ⟨?_, ?_⟩
            · have hlen := copy_rows_length hcopy
              rw [hlen]
              simp only [lib_scaler_ctx]
              ring
            · intro raw hraw i j hi hj
              rw [hrun] at hraw
              injection hraw with h2
              subst h2
              exact copy_rows_getElem hcopy i j hi hj
        · simp at hok

/-- Concrete scaler-run collaborator used by the C1 witness: the converted
frame has stride 2 with one padding byte (value 99) per row. -/
def c1_run : ScalerCtx → DecFrame → Except String RawConv :=
  fun _ _ => Except.ok { stride := 2, data := [10, 99, 20, 99] }

/-- Concrete options used by the C1 witness: GRAY8 output at 1×2. -/
def c1_opts : FrameExtractOptions :=
  { pixel_format := PixelFormat.GRAY8
    scaling_method := ScalingMethod.Bilinear
    width := some 1
    height := some 2 }

/-- Concrete decoded frame used by the C1 witness. -/
def c1_frame : DecFrame :=
  { pts := some 0, width := 7, height := 7, format := FfPixel.other 0 }

theorem process_frame_lib_packs_exactly_witness :
    ([10, 20] : List Nat).length =
      (calculate_dimensions c1_opts c1_frame.width c1_frame.height).1 *
        (calculate_dimensions c1_opts c1_frame.width c1_frame.height).2 *
        bytes_per_pixel c1_opts.pixel_format ∧
    ∀ raw, c1_run (lib_scaler_ctx c1_opts c1_frame) c1_frame = Except.ok raw →
      ∀ i j, i < (calculate_dimensions c1_opts c1_frame.width c1_frame.height).2 →
        j < (calculate_dimensions c1_opts c1_frame.width c1_frame.height).1 *
              bytes_per_pixel c1_opts.pixel_format →
        ([10, 20] : List Nat)[i *
            ((calculate_dimensions c1_opts c1_frame.width c1_frame.height).1 *
              bytes_per_pixel c1_opts.pixel_format) + j]? =
          raw.data[i * raw.stride + j]? :=
  process_frame_lib_packs_exactly (Except.ok ()) c1_run c1_opts c1_frame
    [10, 20] (by decide)

/-! ## Helper lemmas about the packet-reading loop -/

theorem read_loop_eq_find (idx : Nat) (target : Int) :
    ∀ packets : List Packet,
      (∀ p ∈ packets, p.stream = idx → p.send = Except.ok ()) →
      read_loop idx target (packets.map ReadResult.ok) =
        match ((packets.filter (fun p => p.stream == idx)).flatMap
            Packet.frames).find? (accept_frame target) with
        | some f => LoopOutcome.found f
        | none => LoopOutcome.exhausted := by
  intro packets
  induction packets with
  | nil => intro _; rfl
  | cons p rest ih =>
    intro hsend
    have hrest : ∀ q ∈ rest, q.stream = idx → q.send = Except.ok () :=
      fun q hq => hsend q (List.mem_cons_of_mem p hq)
    by_cases hstream : p.stream = idx
    · have hbeq : (p.stream == idx) = true := by simp [hstream]
      have hsendp := hsend p (List.mem_cons_self p rest) hstream
      simp only [List.map_cons, read_loop, hbeq, if_true, hsendp,
        List.filter_cons, List.flatMap_cons, List.find?_append]
      cases hf : p.frames.find? (accept_frame target) with
      | some f => simp [hf]
      | none => simp only [hf, Option.none_or]; exact ih hrest
    · have hbeq : (p.stream == idx) = false := by simp [hstream]
      simp only [List.map_cons, read_loop, hbeq, Bool.false_eq_true, if_false,
        List.filter_cons]
      exact ih hrest

/-! ## Claim C2 -/

/-- Claim C2: on a trace of container-yielded packets, the `lib.rs`
decode/flush phase returns the converted form (`process_frame_lib`) of the
first decoded frame whose pts is undefined or `≥ target_ts`, taking frames
of selected-stream packets first (other streams are filtered out, never
sent) and the drained frames after end-of-stream second; if no such frame
exists it fails with `FrameNotFound`. -/
theorem extract_loop_first_acceptable
    (idx : Nat) (target : Int) (packets : List Packet) (drained : List DecFrame)
    (scaler_build : Except String Unit)
    (run_scaler : ScalerCtx → DecFrame → Except String RawConv)
    (o : FrameExtractOptions)
    (hsend : ∀ p ∈ packets, p.stream = idx → p.send = Except.ok ()) :
    decode_loop_lib idx target (packets.map ReadResult.ok) (Except.ok ())
        drained scaler_build run_scaler o =
      match ((packets.filter (fun p => p.stream == idx)).flatMap Packet.frames
          ++ drained).find? (accept_frame target) with
      | some f => process_frame_lib scaler_build run_scaler o f
      | none => some (Except.error FrameExtractError.FrameNotFound) := by
  unfold decode_loop_lib
  rw [read_loop_eq_find idx target packets hsend, List.find?_append]
  cases hf : ((packets.filter (fun p => p.stream == idx)).flatMap
      Packet.frames).find? (accept_frame target) with
  | some f => simp [hf]
  | none => simp only [Option.none_or]

/-- Concrete packet list for the C2 witness: one packet of another stream
(whose frame must be ignored), then a selected-stream packet yielding a
too-early frame followed by an acceptable one. -/
def c2_packets : List Packet :=
  [ { stream := 1, send := Except.ok ()
      frames := [{ pts := some 100, width := 2, height := 2, format := FfPixel.other 0 }] }
  , { stream := 0, send := Except.ok ()
      frames := [ { pts := some 3, width := 2, height := 2, format := FfPixel.other 0 }
                , { pts := some 7, width := 2, height := 2, format := FfPixel.other 0 } ] } ]

theorem extract_loop_first_acceptable_witness :
    decode_loop_lib 0 5 (c2_packets.map ReadResult.ok) (Except.ok ())
        [] (Except.ok ()) c1_run c1_opts =
      match ((c2_packets.filter (fun p : Packet => p.stream == 0)).flatMap Packet.frames
          ++ []).find? (accept_frame 5) with
      | some f => process_frame_lib (Except.ok ()) c1_run c1_opts f
      | none => some (Except.error FrameExtractError.FrameNotFound) :=
  extract_loop_first_acceptable 0 5 c2_packets [] (Except.ok ()) c1_run c1_opts
    (by decide)

/-! ## Claim C3 -/

theorem rat_trunc_eq_floor {q : Rat} (h : 0 ≤ q) : rat_trunc q = ⌊q⌋ := by
  unfold rat_trunc
  rw [Rat.floor_def]
  exact Int.tdiv_eq_ediv (Rat.num_nonneg.mpr h) (Int.natCast_nonneg q.den)

theorem rat_trunc_eq_ceil {q : Rat} (h : q < 0) : rat_trunc q = ⌈q⌉ := by
  have h1 : rat_trunc (-q) = ⌊-q⌋ := rat_trunc_eq_floor (by linarith)
  unfold rat_trunc at h1 ⊢
  rw [Rat.neg_num, Rat.neg_den, Int.neg_tdiv, Int.floor_neg] at h1
  omega

/-- Claim C3: with a positive stream timebase, the target timestamp is the
idealised product `time_sec * denominator / numerator` truncated toward
zero (floor for nonnegative values, ceiling for negative values), so a
nonpositive `time_sec` always yields a nonpositive `target_ts`. -/
theorem target_ts_truncates_toward_zero (time_sec : Rat) (num den : Int)
    (hnum : 0 < num) (hden : 0 < den) :
    (0 ≤ time_sec * (den : Rat) / (num : Rat) →
      target_ts_q time_sec num den = ⌊time_sec * (den : Rat) / (num : Rat)⌋) ∧
    (time_sec * (den : Rat) / (num : Rat) < 0 →
      target_ts_q time_sec num den = ⌈time_sec * (den : Rat) / (num : Rat)⌉) ∧
    (time_sec ≤ 0 → target_ts_q time_sec num den ≤ 0) := by
  refine ⟨fun h => rat_trunc_eq_floor h, fun h => rat_trunc_eq_ceil h, fun ht => ?_⟩
  have hden' : (0 : Rat) ≤ (den : Rat) := by exact_mod_cast hden.le
  have hnum' : (0 : Rat) ≤ (num : Rat) := by exact_mod_cast hnum.le
  have hq : time_sec * (den : Rat) / (num : Rat) ≤ 0 :=
    div_nonpos_of_nonpos_of_nonneg (mul_nonpos_of_nonpos_of_nonneg ht hden') hnum'
  rcases lt_or_eq_of_le hq with hlt | heq
  · rw [show target_ts_q time_sec num den =
        rat_trunc (time_sec * (den : Rat) / (num : Rat)) from rfl,
      rat_trunc_eq_ceil hlt]
    exact Int.ceil_le.mpr (by exact_mod_cast hq)
  · unfold target_ts_q
    rw [heq]
    decide

theorem target_ts_truncates_toward_zero_witness :
    (0 ≤ (-7/2 : Rat) * ((25 : Int) : Rat) / ((1 : Int) : Rat) →
      target_ts_q (-7/2) 1 25 =
        ⌊(-7/2 : Rat) * ((25 : Int) : Rat) / ((1 : Int) : Rat)⌋) ∧
    ((-7/2 : Rat) * ((25 : Int) : Rat) / ((1 : Int) : Rat) < 0 →
      target_ts_q (-7/2) 1 25 =
        ⌈(-7/2 : Rat) * ((25 : Int) : Rat) / ((1 : Int) : Rat)⌉) ∧
    ((-7/2 : Rat) ≤ 0 → target_ts_q (-7/2) 1 25 ≤ 0) :=
  target_ts_truncates_toward_zero (-7/2) 1 25 (by decide) (by decide)

/-! ## Claim C4 -/

theorem read_loop_exhausted (idx : Nat) (target : Int) :
    ∀ trace : List ReadResult,
      (∀ p, ReadResult.ok p ∈ trace → p.stream = idx → p.send = Except.ok ()) →
      (∀ p, ReadResult.ok p ∈ trace → p.stream = idx →
        ∀ f ∈ p.frames, accept_frame target f = false) →
      read_loop idx target trace = LoopOutcome.exhausted := by
  intro trace
  induction trace with
  | nil => intro _ _; rfl
  | cons r rest ih =>
    intro hsend hacc
    cases r with
    | err e => rfl
    | ok p =>
      have hrest := fun q hq => hsend q (List.mem_cons_of_mem _ hq)
      have haccrest := fun q hq => hacc q (List.mem_cons_of_mem _ hq)
      by_cases hstream : p.stream = idx
      · have hbeq : (p.stream == idx) = true := by simp [hstream]
        have hsendp := hsend p (List.mem_cons_self _ _) hstream
        have hfind : p.frames.find? (accept_frame target) = none :=
          List.find?_eq_none.mpr (fun f hf => by
            simp [hacc p (List.mem_cons_self _ _) hstream f hf])
        simp only [read_loop, hbeq, if_true, hsendp, hfind]
        exact ih hrest haccrest
      · have hbeq : (p.stream == idx) = false := by simp [hstream]
        simp only [read_loop, hbeq, Bool.false_eq_true, if_false]
        exact ih hrest haccrest

/-- Claim C4 (amended): if every frame the decoder yields — from
selected-stream packets and from draining — has a *defined* presentation
timestamp strictly below the target timestamp, then the `lib.rs`
extraction fails with `FrameNotFound` and returns no frame.  (The original
claim, without the definedness requirement, is refuted by
`beyond_duration_counterexample`: a frame with undefined pts is accepted
immediately however large the target is.) -/
theorem beyond_duration_frame_not_found
    (env : LibEnv) (time_sec : Rat) (o : FrameExtractOptions) (idx : Nat)
    (hio : env.open_io = Except.ok ()) (hin : env.open_input = Except.ok ())
    (hbest : env.best = some idx) (hctx : env.ctx_params = Except.ok ())
    (hdec : env.dec_video = Except.ok ()) (hseek : env.seek = Except.ok ())
    (heof : env.eof_send = Except.ok ())
    (hsend : ∀ p, ReadResult.ok p ∈ env.trace → p.stream = idx →
      p.send = Except.ok ())
    (hpts : ∀ p, ReadResult.ok p ∈ env.trace → p.stream = idx → ∀ f ∈ p.frames,
      ∃ v, f.pts = some v ∧ v < target_ts_q time_sec env.tb_num env.tb_den)
    (hdrain : ∀ f ∈ env.drained,
      ∃ v, f.pts = some v ∧ v < target_ts_q time_sec env.tb_num env.tb_den) :
    extract_frame_lib env time_sec o =
      some (Except.error FrameExtractError.FrameNotFound) := by
  have hacc : ∀ f : DecFrame,
      (∃ v, f.pts = some v ∧ v < target_ts_q time_sec env.tb_num env.tb_den) →
      accept_frame (target_ts_q time_sec env.tb_num env.tb_den) f = false := by
    rintro f ⟨v, hv, hlt⟩
    simp only [accept_frame, hv, decide_eq_false_iff_not]
    omega
  have hloop : read_loop idx (target_ts_q time_sec env.tb_num env.tb_den)
      env.trace = LoopOutcome.exhausted :=
    read_loop_exhausted idx _ env.trace hsend
      (fun p hp hs f hf => hacc f (hpts p hp hs f hf))
  have hfind : env.drained.find?
      (accept_frame (target_ts_q time_sec env.tb_num env.tb_den)) = none :=
    List.find?_eq_none.mpr (fun f hf => by simp [hacc f (hdrain f hf)])
  simp only [extract_frame_lib, hio, hin, hbest, hctx, hdec, hseek,
    decode_loop_lib, hloop, heof, hfind]

/-- Concrete target-timestamp value used by several witnesses: 100 s at
timebase 1/25 is timestamp 2500. -/
theorem target_ts_q_100_1_25 : target_ts_q 100 1 25 = 2500 := by
  unfold target_ts_q rat_trunc
  norm_num

/-- Frame at pts 3 used by the C4 witness environment. -/
def c4w_frame : DecFrame := ⟨some 3, 1, 1, FfPixel.other 0⟩

/-- Drained frame at pts 5 used by the C4 witness environment. -/
def c4w_drained : DecFrame := ⟨some 5, 1, 1, FfPixel.other 0⟩

/-- Concrete environment for the C4 witness: one selected-stream packet
with a single frame at pts 3, one drained frame at pts 5, target timestamp
2500 (100 s at timebase 1/25). -/
def c4w_env : LibEnv :=
  ⟨Except.ok (), Except.ok (), some 0, Except.ok (), Except.ok (), 1, 25,
    Except.ok (), [ReadResult.ok ⟨0, Except.ok (), [c4w_frame]⟩],
    Except.ok (), [c4w_drained], Except.ok (),
    fun _ _ => Except.ok ⟨1, [42]⟩⟩

theorem beyond_duration_frame_not_found_witness :
    extract_frame_lib c4w_env 100 c1_opts =
      some (Except.error FrameExtractError.FrameNotFound) :=
  beyond_duration_frame_not_found c4w_env 100 c1_opts 0 rfl rfl rfl rfl rfl rfl
    rfl
    (by intro p hp hs
        rw [show c4w_env.trace =
            [ReadResult.ok ⟨0, Except.ok (), [c4w_frame]⟩] from rfl,
          List.mem_singleton] at hp
        injection hp with hp
        subst hp
        rfl)
    (by intro p hp hs f hf
        rw [show c4w_env.trace =
            [ReadResult.ok ⟨0, Except.ok (), [c4w_frame]⟩] from rfl,
          List.mem_singleton] at hp
        injection hp with hp
        subst hp
        rw [show (⟨0, Except.ok (), [c4w_frame]⟩ : Packet).frames =
            [c4w_frame] from rfl, List.mem_singleton] at hf
        subst hf
        exact ⟨3, rfl, by
          show (3 : Int) < target_ts_q 100 1 25
          rw [target_ts_q_100_1_25]
          decide⟩)
    (by intro f hf
        rw [show c4w_env.drained = [c4w_drained] from rfl,
          List.mem_singleton] at hf
        subst hf
        exact ⟨5, rfl, by
          show (5 : Int) < target_ts_q 100 1 25
          rw [target_ts_q_100_1_25]
          decide⟩)

/-- Frame with an undefined pts used by the C4 counterexample. -/
def c4_frame_nopts : DecFrame := ⟨none, 1, 1, FfPixel.other 0⟩

/-- Options for the C4 counterexample: GRAY8 output at 1×1. -/
def c4_opts : FrameExtractOptions :=
  { pixel_format := PixelFormat.GRAY8
    scaling_method := ScalingMethod.Bilinear
    width := some 1
    height := some 1 }

/-- Concrete environment refuting claim C4 as stated: the only frame has an
undefined pts, so the target timestamp (2500) exceeds every defined frame
pts vacuously, yet extraction returns that frame. -/
def c4_env : LibEnv :=
  ⟨Except.ok (), Except.ok (), some 0, Except.ok (), Except.ok (), 1, 25,
    Except.ok (), [ReadResult.ok ⟨0, Except.ok (), [c4_frame_nopts]⟩],
    Except.ok (), [], Except.ok (), fun _ _ => Except.ok ⟨1, [42]⟩⟩

/-- Claim C4 (counterexample): in `c4_env` the requested time (100 s,
target timestamp 2500) exceeds every frame's defined presentation
timestamp, yet the `lib.rs` extraction returns a frame buffer rather than
failing with `FrameNotFound` — the undefined-pts frame is accepted
immediately. -/
theorem beyond_duration_counterexample :
    (∀ p, ReadResult.ok p ∈ c4_env.trace → ∀ f ∈ p.frames, ∀ v : Int,
      f.pts = some v → v < target_ts_q 100 c4_env.tb_num c4_env.tb_den) ∧
    (∀ f ∈ c4_env.drained, ∀ v : Int,
      f.pts = some v → v < target_ts_q 100 c4_env.tb_num c4_env.tb_den) ∧
    extract_frame_lib c4_env 100 c4_opts = some (Except.ok [42]) ∧
    extract_frame_lib c4_env 100 c4_opts ≠
      some (Except.error FrameExtractError.FrameNotFound) := by
  refine ⟨?_, ?_, by decide, by decide⟩
  · intro p hp f hf v hv
    rw [show c4_env.trace =
        [ReadResult.ok ⟨0, Except.ok (), [c4_frame_nopts]⟩] from rfl,
      List.mem_singleton] at hp
    injection hp with hp
    subst hp
    rw [show (⟨0, Except.ok (), [c4_frame_nopts]⟩ : Packet).frames =
        [c4_frame_nopts] from rfl, List.mem_singleton] at hf
    subst hf
    simp [c4_frame_nopts] at hv
  · intro f hf v hv
    rw [show c4_env.drained = ([] : List DecFrame) from rfl] at hf
    exact absurd hf (List.not_mem_nil f)
/-! ## Claim C5 -/

/-- Claim C5 (counterexample): the outward-facing `lib.rs` entry point
`get_video_frame` returns an empty buffer in place of an error — a failing
extraction yields `[]`, indistinguishable from a successful extraction of
an empty buffer, with no error kind or message. -/
theorem get_video_frame_empty_on_error :
    get_video_frame (Except.error FrameExtractError.FrameNotFound) = [] ∧
    get_video_frame (Except.ok []) = [] :=
  ⟨rfl, rfl⟩

/-- Claim C5 (amended): the `wasm_interface.rs` entry point
`extract_video_frame` reports every failure as a structured result
carrying the numeric error kind and the message (`success = false`) and
every success as `success = true` with the buffer; the `lib.rs` entry
points `get_video_frame` / `get_video_frame_with_options` instead
collapse every error to an empty buffer. -/
theorem wasm_boundary_structured_result :
    (∀ e : VideoError, extract_video_frame (Except.error e) =
      { buffer := [], success := false, error_code := e.code.get_code,
        error_message := e.message }) ∧
    (∀ b : List Nat, extract_video_frame (Except.ok b) =
      { buffer := b, success := true, error_code := 0, error_message := "" }) ∧
    (∀ e : FrameExtractError, get_video_frame (Except.error e) = []) :=
  ⟨fun _ => rfl, fun _ => rfl, fun _ => rfl⟩

/-! ## Claim C6 -/

/-- Environment for the C6 evaluation: the scaler construction fails in the
file-backed pipeline. -/
def c6_env : VpEnv :=
  ⟨Except.ok (), some 0, Except.ok (), Except.ok (), 1, 25, Except.ok (),
    FfPixel.other 0, 2, 2, Except.error "unsupported format pair", [],
    Except.ok (), [], fun _ _ => Except.ok ⟨6, [0, 0, 0, 0, 0, 0]⟩⟩

/-- Claim C6 (code evaluation): in the buffer-based `lib.rs` pipeline a
converter construction failure panics (the `.unwrap()` inside
`get_or_insert_with`, modelled by `none`) instead of returning an error of
the `FFmpegError` kind, while the file-backed `video_processor.rs`
pipeline maps the same failure to the `FFmpegError` kind, numeric code 7,
with a message — the spec's stated behaviour. -/
theorem scaler_build_failure_panics :
    process_frame_lib (Except.error "unsupported format pair") c1_run c1_opts
      c1_frame = none ∧
    extract_frame_vp c6_env 0 = some (Except.error
      { code := VideoErrorCode.FFmpegError,
        message := "创建缩放器失败: unsupported format pair" }) ∧
    VideoErrorCode.FFmpegError.get_code = 7 :=
  ⟨rfl, rfl, rfl⟩

/-! ## Claim C7 -/

/-- Spec-side mapping of the `lib.rs` error variants onto the numeric
taxonomy of spec §6 (`BackendError`/`FFmpegError` = 7, `FrameNotFound` = 4),
for comparison only: `FrameExtractError` itself carries no codes and has
no `SeekFailed` variant. -/
def lib_error_kind_code : FrameExtractError → Nat
  | FrameExtractError.FFmpegError _ => 7
  | FrameExtractError.FrameNotFound => 4

/-- Environment for the C7 counterexample: the container seek errors in the
buffer-based pipeline. -/
def c7_env : LibEnv :=
  ⟨Except.ok (), Except.ok (), some 0, Except.ok (), Except.ok (), 1, 25,
    Except.error "seek failed", [], Except.ok (), [], Except.ok (),
    fun _ _ => Except.ok ⟨1, [0]⟩⟩

/-- Claim C7 (counterexample): in the buffer-based `lib.rs` pipeline a
container seek error is surfaced through `?` and the `From` impl as the
generic `FFmpegError` kind (numeric taxonomy code 7), not as `SeekFailed`
(code 6). -/
theorem lib_seek_error_not_seekfailed :
    extract_frame_lib c7_env 100 c4_opts =
      some (Except.error (FrameExtractError.FFmpegError "seek failed")) ∧
    lib_error_kind_code (FrameExtractError.FFmpegError "seek failed") = 7 ∧
    VideoErrorCode.SeekFailed.get_code = 6 :=
  ⟨rfl, rfl, rfl⟩

/-- Claim C7 (amended): in the file-backed `video_processor.rs` pipeline,
whenever the container seek call errors (the preceding steps having
succeeded), extraction fails with exactly the `SeekFailed` kind, numeric
code 6, carrying the seek message — and with no other kind.  In the
buffer-based `lib.rs` pipeline the same failure is surfaced as the generic
`FFmpegError` kind instead (see the counterexample). -/
theorem vp_seek_error_is_seekfailed
    (env : VpEnv) (time_sec : Rat) (msg : String) (idx : Nat)
    (hopen : env.open_input = Except.ok ()) (hbest : env.best = some idx)
    (hctx : env.ctx_params = Except.ok ()) (hdec : env.dec_video = Except.ok ())
    (hseek : env.seek = Except.error msg) :
    extract_frame_vp env time_sec =
      some (Except.error
        { code := VideoErrorCode.SeekFailed,
          message := "无法定位到目标时间点: " ++ msg }) ∧
    VideoErrorCode.SeekFailed.get_code = 6 := by
  refine ⟨?_, rfl⟩
  simp only [extract_frame_vp, hopen, hbest, hctx, hdec, hseek]
  rfl

/-- Environment for the C7 witness: an unseekable file-backed source. -/
def c7w_env : VpEnv :=
  ⟨Except.ok (), some 0, Except.ok (), Except.ok (), 1, 25,
    Except.error "unseekable", FfPixel.other 0, 2, 2, Except.ok (), [],
    Except.ok (), [], fun _ _ => Except.ok ⟨6, []⟩⟩

theorem vp_seek_error_is_seekfailed_witness :
    extract_frame_vp c7w_env 100 =
      some (Except.error
        { code := VideoErrorCode.SeekFailed,
          message := "无法定位到目标时间点: unseekable" }) ∧
    VideoErrorCode.SeekFailed.get_code = 6 :=
  vp_seek_error_is_seekfailed c7w_env 100 "unseekable" 0 rfl rfl rfl rfl rfl

/-! ## Claim C8 -/

/-- Claim C8: when the temporary backing file is written successfully, the
in-memory extraction removes it before returning — the remove event
follows the write event on the single exit path, whether the wrapped
extraction succeeded or failed — and the call's result is exactly that of
the file-backed extraction applied to the written bytes. -/
theorem extract_from_memory_cleanup
    (file_extract : List Nat → Rat → Except VideoError (List Nat))
    (input_data : List Nat) (time_sec : Rat)
    (write_result : Except String Unit) (hw : write_result = Except.ok ()) :
    (extract_frame_from_memory file_extract write_result input_data
        time_sec).1 = file_extract input_data time_sec ∧
    (extract_frame_from_memory file_extract write_result input_data
        time_sec).2 = [FsEvent.writeTemp input_data, FsEvent.removeTemp] := by
  subst hw
  exact ⟨rfl, rfl⟩

theorem extract_from_memory_cleanup_witness :
    (extract_frame_from_memory
        (fun d _ => (Except.ok d : Except VideoError (List Nat)))
        (Except.ok ()) [1, 2] 0).1 = Except.ok [1, 2] ∧
    (extract_frame_from_memory
        (fun d _ => (Except.ok d : Except VideoError (List Nat)))
        (Except.ok ()) [1, 2] 0).2 =
      [FsEvent.writeTemp [1, 2], FsEvent.removeTemp] :=
  extract_from_memory_cleanup (fun d _ => Except.ok d) [1, 2] 0
    (Except.ok ()) rfl

/-! ## Claim C9 -/

theorem process_frame_lib_ok_length
    {scaler_build : Except String Unit}
    {run_scaler : ScalerCtx → DecFrame → Except String RawConv}
    {o : FrameExtractOptions} {frame : DecFrame} {b : List Nat}
    (h : process_frame_lib scaler_build run_scaler o frame =
      some (Except.ok b)) :
    b.length =
      (calculate_dimensions o frame.width frame.height).1 *
        (calculate_dimensions o frame.width frame.height).2 *
        bytes_per_pixel o.pixel_format := by
  simp only [process_frame_lib] at h
  split at h
  · simp at h
  · split at h
    · simp at h
    · split at h
      · next buf0 hcopy =>
          simp only [Option.some.injEq, Except.ok.injEq] at h
          subst h
          rw [copy_rows_length hcopy]
          simp only [lib_scaler_ctx]
          ring
      · simp at h

theorem decode_loop_lib_ok_frame
    {idx : Nat} {target : Int} {trace : List ReadResult}
    {eof_send : Except String Unit} {drained : List DecFrame}
    {scaler_build : Except String Unit}
    {run_scaler : ScalerCtx → DecFrame → Except String RawConv}
    {o : FrameExtractOptions} {b : List Nat}
    (h : decode_loop_lib idx target trace eof_send drained scaler_build
      run_scaler o = some (Except.ok b)) :
    ∃ f, (read_loop idx target trace = LoopOutcome.found f ∨
        (read_loop idx target trace = LoopOutcome.exhausted ∧
          drained.find? (accept_frame target) = some f)) ∧
      process_frame_lib scaler_build run_scaler o f = some (Except.ok b) := by
  unfold decode_loop_lib at h
  split at h
  · next f hf => exact ⟨f, Or.inl hf, h⟩
  · simp at h
  · next hloop =>
      split at h
      · simp at h
      · split at h
        · next f hfind => exact ⟨f, Or.inr ⟨hloop, hfind⟩, h⟩
        · simp at h

theorem extract_frame_lib_ok_decode
    {env : LibEnv} {time_sec : Rat} {o : FrameExtractOptions} {b : List Nat}
    (h : extract_frame_lib env time_sec o = some (Except.ok b)) :
    ∃ idx, env.best = some idx ∧
      decode_loop_lib idx (target_ts_q time_sec env.tb_num env.tb_den)
        env.trace env.eof_send env.drained env.scaler_build env.run_scaler o =
      some (Except.ok b) := by
  unfold extract_frame_lib at h
  split at h
  · simp at h
  · split at h
    · simp at h
    · split at h
      · simp at h
      · next idx hbest =>
          split at h
          · simp at h
          · split at h
            · simp at h
            · split at h
              · simp at h
              · exact ⟨idx, hbest, h⟩

/-- Claim C9: two successful buffer-based extractions that differ only in
the requested scaling method produce buffers of the same length, and the
output dimensions (`calculate_dimensions`) are unaffected by the scaling
method; only the resampled pixel values may differ. -/
theorem scaling_method_preserves_dimensions
    (env : LibEnv) (time_sec : Rat) (o : FrameExtractOptions)
    (m : ScalingMethod) (b₁ b₂ : List Nat)
    (h₁ : extract_frame_lib env time_sec o = some (Except.ok b₁))
    (h₂ : extract_frame_lib env time_sec { o with scaling_method := m } =
      some (Except.ok b₂)) :
    b₁.length = b₂.length ∧
    ∀ w h, calculate_dimensions { o with scaling_method := m } w h =
      calculate_dimensions o w h := by
  refine ⟨?_, fun w h => rfl⟩
  obtain ⟨idx₁, hbest₁, hdec₁⟩ := extract_frame_lib_ok_decode h₁
  obtain ⟨idx₂, hbest₂, hdec₂⟩ := extract_frame_lib_ok_decode h₂
  have hidx : idx₁ = idx₂ := by
    rw [hbest₁] at hbest₂
    injection hbest₂
  subst hidx
  obtain ⟨f₁, hor₁, hproc₁⟩ := decode_loop_lib_ok_frame hdec₁
  obtain ⟨f₂, hor₂, hproc₂⟩ := decode_loop_lib_ok_frame hdec₂
  have hf : f₁ = f₂ := by
    rcases hor₁ with h₁' | ⟨h₁', hfind₁⟩
    · rcases hor₂ with h₂' | ⟨h₂', hfind₂⟩
      · rw [h₁'] at h₂'
        exact LoopOutcome.found.inj h₂'
      · rw [h₁'] at h₂'
        cases h₂'
    · rcases hor₂ with h₂' | ⟨h₂', hfind₂⟩
      · rw [h₁'] at h₂'
        cases h₂'
      · rw [hfind₁] at hfind₂
        exact Option.some.inj hfind₂
  subst hf
  rw [process_frame_lib_ok_length hproc₁, process_frame_lib_ok_length hproc₂]
  rfl

/-- Environment for the C9 witness: one selected-stream packet whose frame
(undefined pts) is accepted immediately; the converter leaves a 1×1 GRAY8
buffer. -/
def c9_env : LibEnv :=
  ⟨Except.ok (), Except.ok (), some 0, Except.ok (), Except.ok (), 1, 25,
    Except.ok (),
    [ReadResult.ok ⟨0, Except.ok (), [⟨none, 1, 1, FfPixel.other 0⟩]⟩],
    Except.ok (), [], Except.ok (), fun _ _ => Except.ok ⟨1, [42]⟩⟩

theorem scaling_method_preserves_dimensions_witness :
    ([42] : List Nat).length = ([42] : List Nat).length ∧
    ∀ w h, calculate_dimensions { c4_opts with scaling_method :=
        ScalingMethod.Fast } w h = calculate_dimensions c4_opts w h :=
  scaling_method_preserves_dimensions c9_env 100 c4_opts ScalingMethod.Fast
    [42] [42] (by decide) (by decide)

/-! ## Claim C10 -/

/-- Claim C10: in the buffer-based `lib.rs` pipeline any error returned by
the container's packet read — not only end of stream — silently ends the
packet-reading loop: the extraction result on a trace containing a read
error equals the result on the prefix before that error, so the call
proceeds to the end-of-stream drain exactly as if the container had been
exhausted normally, and a mid-stream read error is never surfaced as a
distinct error kind. -/
theorem read_error_ends_loop_silently
    (env : LibEnv) (time_sec : Rat) (o : FrameExtractOptions)
    (t₁ t₂ : List ReadResult) (e : String) :
    extract_frame_lib { env with trace := t₁ ++ ReadResult.err e :: t₂ }
        time_sec o =
      extract_frame_lib { env with trace := t₁ } time_sec o := by
  have hrl : ∀ idx target, read_loop idx target
      (t₁ ++ ReadResult.err e :: t₂) = read_loop idx target t₁ := by
    intro idx target
    induction t₁ with
    | nil => rfl
    | cons r rest ih =>
      cases r with
      | err msg => rfl
      | ok p => simp only [List.cons_append, read_loop, List.append_eq, ih]
  simp only [extract_frame_lib, decode_loop_lib, hrl]

end VideoCapture
